import Mathlib

set_option linter.unusedVariables false

/-!
Verification development for the fedflow backend (src/backend/main.py,
src/backend/sam_scraper.py, src/backend/summarizer.py).

The Python code is shallowly embedded: pure string/number helpers become
Lean functions over `String`/`List Char`/`ℚ`/`Int`; the two network
boundaries (the SAM.gov search request and the LLM completion call) are
modelled as explicit outcome parameters, since the repository treats both
services as black boxes.  Python float formatting is modelled over exact
rationals with round-half-to-even, which agrees with CPython on every
amount whose intermediate quotients are exactly representable (in
particular on all inputs appearing in the claims).
-/

/-! ## Generic string helpers (models of Python `in`, `.lower()`, `.strip()`,
`.replace()`, `str.startswith`) -/

/-- Model of Python substring search: `needle in hay` restricted to lists of
characters.  True when `needle` occurs contiguously in `hay`. -/
def substrAux (needle : List Char) : List Char → Bool
  | [] => needle.isEmpty
  | c :: rest => needle.isPrefixOf (c :: rest) || substrAux needle rest

/-- Model of Python `needle in hay` on strings. -/
def strContains (hay needle : String) : Bool :=
  substrAux needle.data hay.data

/-- Model of Python `s.lower()` (ASCII case folding, which covers every
string the code and spec exercise). -/
def strLower (s : String) : String :=
  String.mk (s.data.map Char.toLower)

/-- Model of Python `s.startswith(p)`. -/
def strStartsWith (s p : String) : Bool :=
  p.data.isPrefixOf s.data

/-- Model of Python `s.strip()`: drop whitespace from both ends. -/
def pyStrip (cs : List Char) : List Char :=
  ((cs.dropWhile Char.isWhitespace).reverse.dropWhile Char.isWhitespace).reverse

/-- Model of Python `s.replace(pat, repl)`: left-to-right, non-overlapping
replacement of every occurrence.  The fuel argument, initialized to the
input length, only makes the recursion structural: every step consumes at
least one input character, so the fuel never runs out. -/
def replaceAux (pat repl : List Char) : Nat → List Char → List Char
  | 0, cs => cs
  | _ + 1, [] => []
  | fuel + 1, c :: rest =>
    if pat.isPrefixOf (c :: rest) then
      repl ++ replaceAux pat repl fuel (rest.drop (pat.length - 1))
    else
      c :: replaceAux pat repl fuel rest

/-- Model of Python `s.replace(pat, repl)` on strings. -/
def pyReplace (s pat repl : String) : String :=
  String.mk (replaceAux pat.data repl.data s.data.length s.data)

/-! ## `SAMIntegration._clean_text` (sam_scraper.py lines 217-237) -/

/-- Whitespace-run collapsing used by `_clean_text`: model of
`re.sub(r'\s+', ' ', text)` applied to an already-stripped string.  The
boolean argument records whether the previous character was whitespace. -/
def collapseWsAux : Bool → List Char → List Char
  | _, [] => []
  | prevWs, c :: rest =>
    if c.isWhitespace then
      if prevWs then collapseWsAux true rest
      else ' ' :: collapseWsAux true rest
    else c :: collapseWsAux false rest

/-- The fixed HTML-entity substitutions of `_clean_text`, applied in the
insertion order of the Python dict. -/
def applyEntities (s : String) : String :=
  pyReplace (pyReplace (pyReplace (pyReplace (pyReplace s "&amp;" "&")
    "&lt;" "<") "&gt;" ">") "&quot;" "\"") "&#39;" "\x27"

/-- Embedding of `SAMIntegration._clean_text`: empty input maps to the empty
string; otherwise whitespace is collapsed after stripping, and the fixed
HTML entities are decoded. -/
def clean_text (text : String) : String :=
  if text = "" then ""
  else applyEntities (String.mk (collapseWsAux false (pyStrip text.data)))

/-! ## `SAMIntegration._parse_set_aside` (sam_scraper.py lines 178-197) -/

/-- Embedding of `SAMIntegration._parse_set_aside`.  Note that the first
four pattern groups are tested against the lowercased input while the
`8(a)` test on line 194 of the source reads the original
`set_aside_text`, hence is case-sensitive. -/
def parse_set_aside (set_aside_text : String) : String :=
  if set_aside_text = "" then "Open Competition"
  else
    let set_aside_lower := strLower set_aside_text
    if strContains set_aside_lower "service-disabled" || strContains set_aside_lower "sdvosb" then
      "SDVOSB"
    else if strContains set_aside_lower "women-owned" || strContains set_aside_lower "wosb" then
      "WOSB"
    else if strContains set_aside_lower "hubzone" then
      "HubZone"
    else if strContains set_aside_lower "small business" then
      "Small Business"
    else if strContains set_aside_text "8(a)" then
      "8(a)"
    else
      set_aside_text

/-- The priority-ordered pattern table that the specification describes for
set-aside normalization. -/
def setAsidePriorityTable : List (List String × String) :=
  [(["service-disabled", "sdvosb"], "SDVOSB"),
   (["women-owned", "wosb"], "WOSB"),
   (["hubzone"], "HubZone"),
   (["small business"], "Small Business")]

/-- First entry of a priority table one of whose patterns occurs in the
(already lowercased) input. -/
def priorityMatch (lower : String) : List (List String × String) → Option String
  | [] => none
  | (pats, result) :: rest =>
    if pats.any (fun p => strContains lower p) then some result
    else priorityMatch lower rest

/-- Set-aside normalization exactly as the claim words it: every pattern,
including the final literal `8(a)`, is matched case-insensitively. -/
def specSetAsideClaim (s : String) : String :=
  if s = "" then "Open Competition"
  else
    match priorityMatch (strLower s) setAsidePriorityTable with
    | some r => r
    | none => if strContains (strLower s) "8(a)" then "8(a)" else s

/-- Set-aside normalization as amended: the four alias groups are matched
case-insensitively in priority order, while the literal `8(a)` pattern is
matched case-sensitively against the original text. -/
def specSetAsideAmended (s : String) : String :=
  if s = "" then "Open Competition"
  else
    match priorityMatch (strLower s) setAsidePriorityTable with
    | some r => r
    | none => if strContains s "8(a)" then "8(a)" else s

/-! ## `SAMIntegration._format_currency` (sam_scraper.py lines 167-176)

Python `format(x, '.1f')` / `'.0f'` / `',.0f'` round the value half to
even; the helpers below reproduce that over exact rationals. -/

/-- Round a rational to the nearest integer, ties to even (the rounding of
CPython float formatting on exactly representable values). -/
def roundHalfEven (q : ℚ) : Int :=
  let f := ⌊q⌋
  let r := q - (f : ℚ)
  if r < 1/2 then f
  else if 1/2 < r then f + 1
  else if f % 2 = 0 then f else f + 1

/-- Model of `f"{q:.1f}"`: one decimal digit, half-to-even rounding. -/
def formatFixed1 (q : ℚ) : String :=
  let n := roundHalfEven (q * 10)
  (if n < 0 then "-" else "") ++ toString (n.natAbs / 10) ++ "." ++ toString (n.natAbs % 10)

/-- Model of `f"{q:.0f}"`: no decimals, half-to-even rounding. -/
def formatFixed0 (q : ℚ) : String :=
  toString (roundHalfEven q)

/-- Insert thousands separators into a reversed digit list (helper for the
`,` format flag). -/
def revGroupThrees : List Char → Nat → List Char
  | [], _ => []
  | c :: rest, count =>
    if count = 2 then
      c :: (if rest.isEmpty then [] else ',' :: revGroupThrees rest 0)
    else
      c :: revGroupThrees rest (count + 1)

/-- Model of `f"{q:,.0f}"`: no decimals, half-to-even rounding, thousands
separators. -/
def formatComma0 (q : ℚ) : String :=
  let n := roundHalfEven q
  (if n < 0 then "-" else "") ++
    String.mk ((revGroupThrees (toString n.natAbs).data.reverse 0).reverse)

/-- Embedding of `SAMIntegration._format_currency`. -/
def format_currency (amount : ℚ) : String :=
  if (1000000000 : ℚ) ≤ amount then
    "$" ++ formatFixed1 (amount / 1000000000) ++ "B"
  else if (1000000 : ℚ) ≤ amount then
    "$" ++ formatFixed1 (amount / 1000000) ++ "M"
  else if (1000 : ℚ) ≤ amount then
    "$" ++ formatFixed0 (amount / 1000) ++ "K"
  else
    "$" ++ formatComma0 amount

/-! ## `SAMIntegration._clean_phone` (sam_scraper.py lines 239-253) -/

/-- The digit characters of a phone string, in order: model of
`re.sub(r'\D', '', phone)`. -/
def phoneDigits (phone : String) : List Char :=
  phone.data.filter Char.isDigit

/-- Embedding of `SAMIntegration._clean_phone`. -/
def clean_phone (phone : String) : String :=
  if phone = "" then ""
  else
    let digits := phoneDigits phone
    if digits.length = 10 then
      "(" ++ String.mk (digits.take 3) ++ ") " ++ String.mk ((digits.drop 3).take 3) ++
        "-" ++ String.mk (digits.drop 6)
    else if digits.length = 11 && digits.head? = some '1' then
      "(" ++ String.mk ((digits.drop 1).take 3) ++ ") " ++ String.mk ((digits.drop 4).take 3) ++
        "-" ++ String.mk (digits.drop 7)
    else
      phone

/-! ## The normalized Opportunity shape (sam_scraper.py lines 97-123) -/

/-- The nested `contactInfo` object of a normalized opportunity. -/
structure ContactInfo where
  name : String
  email : String
  phone : String
deriving DecidableEq, Inhabited

/-- The nested `additionalInfo` object of a normalized opportunity. -/
structure AdditionalInfo where
  classificationCode : String
  organizationType : String
  state : String
deriving DecidableEq, Inhabited

/-- The stable internal record shape produced by
`SAMIntegration._parse_opportunities` for each raw record. -/
structure Opportunity where
  id : String
  title : String
  agency : String
  office : String
  solicitationNumber : String
  naics : String
  naicsDescription : String
  setAsideType : String
  dueDate : String
  postedDate : String
  estimatedValue : String
  placeOfPerformance : String
  description : String
  url : String
  type : String
  contactInfo : ContactInfo
  additionalInfo : AdditionalInfo
deriving DecidableEq, Inhabited

/-! ## `calculate_basic_match_score` (main.py lines 106-128)

Python float arithmetic is modelled over exact rationals; every constant
involved (0.5, 0.3, 0.2, 0.1, 0.05, 1.0) and every comparison the claims
exercise is exact in this model. -/

/-- Embedding of `calculate_basic_match_score` from main.py. -/
def calculate_basic_match_score (opportunity : Opportunity) : ℚ :=
  let score : ℚ := 0.5
  let naics := opportunity.naics
  let score :=
    if strStartsWith naics "541512" || strStartsWith naics "541511" || strStartsWith naics "518210" then
      score + 0.3
    else score
  let set_aside := opportunity.setAsideType
  let score :=
    if strContains set_aside "SDVOSB" || strContains set_aside "Service-Disabled" then
      score + 0.2
    else if strContains set_aside "Small Business" then
      score + 0.1
    else score
  let title_desc := strLower (opportunity.title ++ " " ++ opportunity.description)
  let high_value_keywords := ["cloud", "cybersecurity", "infrastructure", "modernization", "digital"]
  let keyword_matches := (high_value_keywords.filter (fun k => strContains title_desc k)).length
  let score := score + min 0.2 ((keyword_matches : ℚ) * 0.05)
  min 1.0 score

/-- Whether a NAICS code starts with one of the fixed IT-related codes
{541512, 541511, 518210}. -/
def itNaics (naics : String) : Bool :=
  strStartsWith naics "541512" || strStartsWith naics "541511" || strStartsWith naics "518210"

/-- The set-aside bonus exactly as the claim states it: 0.2 for
SDVOSB/Service-Disabled, else 0.1 for Small Business, else 0. -/
def setAsideBonus (set_aside : String) : ℚ :=
  if strContains set_aside "SDVOSB" || strContains set_aside "Service-Disabled" then 0.2
  else if strContains set_aside "Small Business" then 0.1
  else 0

/-- The number of matching high-value keywords in the case-folded
concatenation of title and description. -/
def keywordCount (title description : String) : ℕ :=
  ((["cloud", "cybersecurity", "infrastructure", "modernization", "digital"] : List String).filter
    (fun k => strContains (strLower (title ++ " " ++ description)) k)).length

/-- The scoring algorithm exactly as the claim states it: base 0.5 plus the
three bonuses, clamped to at most 1. -/
def matchScoreSpec (opp : Opportunity) : ℚ :=
  min 1 (0.5 + (if itNaics opp.naics then 0.3 else 0)
    + setAsideBonus opp.setAsideType
    + min 0.2 ((keywordCount opp.title opp.description : ℚ) * 0.05))

/-- Shared characterization of the scorer, used by the score claims. -/
theorem score_characterization (opp : Opportunity) :
    calculate_basic_match_score opp = matchScoreSpec opp := by
  simp only [calculate_basic_match_score, matchScoreSpec, itNaics, setAsideBonus, keywordCount]
  split_ifs <;> ring_nf

/-! ## Raw upstream records (inputs of `_parse_opportunities`)

A raw SAM.gov record is an open JSON object; the model records exactly the
fields the parser reads, each as an `Option` (`none` = key missing). -/

/-- A JSON-like scalar as it may appear in the three estimated-value source
fields: a number or a string. -/
inductive PyVal where
  | num (q : ℚ)
  | str (s : String)
deriving DecidableEq

/-- Python truthiness of such a scalar (`if value:`): zero and the empty
string are falsy. -/
def pyTruthy : PyVal → Bool
  | .num q => q ≠ 0
  | .str s => s ≠ ""

/-- One entry of the upstream `pointOfContact` list. -/
structure RawContact where
  fullName : Option String
  email : Option String
  phone : Option String
deriving DecidableEq

/-- The upstream `city` field of `placeOfPerformance`: either a nested
object carrying an optional `name`, or some non-dict JSON value whose
Python `str()` rendering is recorded. -/
inductive RawCity where
  | dict (name : Option String)
  | other (rendering : String)
deriving DecidableEq

/-- The upstream `placeOfPerformance` object, restricted to the fields the
parser reads: `city`, and the `name` inside `state`. -/
structure RawLocation where
  city : Option RawCity
  state : Option (Option String)
deriving DecidableEq

/-- A raw upstream opportunity record, restricted to the keys
`_parse_opportunities` and `_parse_estimated_value` read.  `none` means the
key is absent from the JSON object; `pointOfContact` is `[]` both when the
key is absent and when the list is empty, which the source treats
identically. -/
structure RawOpp where
  noticeId : Option String
  solicitationNumber : Option String
  title : Option String
  departmentName : Option String
  subTier : Option String
  naicsCode : Option String
  naicsCodeDescription : Option String
  typeOfSetAside : Option String
  responseDeadLine : Option String
  postedDate : Option String
  awardAmount : Option PyVal
  estimatedValue : Option PyVal
  baseAndAllOptionsValue : Option PyVal
  placeOfPerformance : Option RawLocation
  description : Option String
  uiLink : Option String
  noticeType : Option String
  pointOfContact : List RawContact
  classificationCode : Option String
  organizationType : Option String
  state : Option String
deriving DecidableEq

/-! ## `SAMIntegration._parse_estimated_value` (sam_scraper.py lines 129-165)

The three regular expressions of the source are modelled as executable
leftmost-greedy matchers over character lists. -/

/-- Character class `[\d,]`. -/
def isDigitComma (c : Char) : Bool :=
  c.isDigit || c = ','

/-- Leftmost match of `\$?[\d,]+` (the `re.findall(...)[0]` of the source):
an optional dollar sign followed by a non-empty run of digits/commas. -/
def findMoneyRun : List Char → Option (List Char)
  | [] => none
  | c :: rest =>
    if c = '$' then
      let run := rest.takeWhile isDigitComma
      if run.isEmpty then findMoneyRun rest else some ('$' :: run)
    else if isDigitComma c then
      some (c :: rest.takeWhile isDigitComma)
    else
      findMoneyRun rest

/-- Python `int(s)` on a digit string: fails on the empty string or any
non-digit character. -/
def parseIntDigits (cs : List Char) : Option Nat :=
  if cs.isEmpty then none
  else if cs.all Char.isDigit then
    some (cs.foldl (fun a c => a * 10 + (c.toNat - '0'.toNat)) 0)
  else none

/-- Case-insensitive literal prefix match; returns the matched input
characters (original case, as `re.findall` reports them) and the rest. -/
def ciPrefix : List Char → List Char → Option (List Char × List Char)
  | [], input => some ([], input)
  | _ :: _, [] => none
  | p :: ps, c :: cs =>
    if p.toLower = c.toLower then
      match ciPrefix ps cs with
      | some (m, rest) => some (c :: m, rest)
      | none => none
    else none

/-- The alternation `(?:million|M|billion|B)` with `re.IGNORECASE`, tried in
the source's order. -/
def matchMagnitudeWord (cs : List Char) : Option (List Char × List Char) :=
  match ciPrefix "million".data cs with
  | some r => some r
  | none =>
    match ciPrefix "M".data cs with
    | some r => some r
    | none =>
      match ciPrefix "billion".data cs with
      | some r => some r
      | none => ciPrefix "B".data cs

/-- The optional group `(?:\.\d{2})?`: a decimal point followed by exactly
two digits, taken greedily when present. -/
def matchFrac (cs : List Char) : List Char × List Char :=
  match cs with
  | '.' :: d1 :: d2 :: rest =>
    if d1.isDigit && d2.isDigit then (['.', d1, d2], rest) else ([], cs)
  | _ => ([], cs)

/-- The optional group `(?:\s*(?:million|M|billion|B))?`, greedy. -/
def matchOptMagnitude (cs : List Char) : List Char × List Char :=
  let spaces := cs.takeWhile Char.isWhitespace
  match matchMagnitudeWord (cs.drop spaces.length) with
  | some (word, rest) => (spaces ++ word, rest)
  | none => ([], cs)

/-- Match of the first description pattern
`\$[\d,]+(?:\.\d{2})?(?:\s*(?:million|M|billion|B))?` at the head of the
input. -/
def matchValuePat1At (cs : List Char) : Option (List Char) :=
  match cs with
  | '$' :: rest =>
    let run := rest.takeWhile isDigitComma
    if run.isEmpty then none
    else
      let r1 := rest.drop run.length
      let (frac, r2) := matchFrac r1
      let (mag, _) := matchOptMagnitude r2
      some ('$' :: run ++ frac ++ mag)
  | _ => none

/-- Leftmost match of the first description pattern anywhere in the
input. -/
def findValuePat1 : List Char → Option (List Char)
  | [] => none
  | c :: rest =>
    match matchValuePat1At (c :: rest) with
    | some m => some m
    | none => findValuePat1 rest

/-- Match of the second description pattern
`[\d,]+(?:\.\d{2})?\s*(?:million|M|billion|B)\s*dollars?` at the head of
the input. -/
def matchValuePat2At (cs : List Char) : Option (List Char) :=
  let run := cs.takeWhile isDigitComma
  if run.isEmpty then none
  else
    let r1 := cs.drop run.length
    let (frac, r2) := matchFrac r1
    let spaces1 := r2.takeWhile Char.isWhitespace
    match matchMagnitudeWord (r2.drop spaces1.length) with
    | none => none
    | some (word, r3) =>
      let spaces2 := r3.takeWhile Char.isWhitespace
      match ciPrefix "dollar".data (r3.drop spaces2.length) with
      | none => none
      | some (dollar, r4) =>
        match ciPrefix "s".data r4 with
        | some (sChar, _) => some (run ++ frac ++ spaces1 ++ word ++ spaces2 ++ dollar ++ sChar)
        | none => some (run ++ frac ++ spaces1 ++ word ++ spaces2 ++ dollar)

/-- Leftmost match of the second description pattern anywhere in the
input. -/
def findValuePat2 : List Char → Option (List Char)
  | [] => none
  | c :: rest =>
    match matchValuePat2At (c :: rest) with
    | some m => some m
    | none => findValuePat2 rest

/-- The `for value in value_fields` loop of `_parse_estimated_value`:
truthy numeric values are formatted directly; truthy string values are
searched for `\$?[\d,]+` and formatted when the digits parse as an
integer; every failure falls through to the next field. -/
def tryValueFields : List (Option PyVal) → Option String
  | [] => none
  | v :: rest =>
    match v with
    | some pv =>
      if pyTruthy pv then
        match pv with
        | .num q => some (format_currency q)
        | .str s =>
          match findMoneyRun s.data with
          | some m =>
            match parseIntDigits (m.filter (fun c => c ≠ ',' && c ≠ '$')) with
            | some n => some (format_currency (n : ℚ))
            | none => tryValueFields rest
          | none => tryValueFields rest
      else tryValueFields rest
    | none => tryValueFields rest

/-- Embedding of `SAMIntegration._parse_estimated_value`. -/
def parse_estimated_value (item : RawOpp) : String :=
  match tryValueFields [item.awardAmount, item.estimatedValue, item.baseAndAllOptionsValue] with
  | some s => s
  | none =>
    let description := (item.description.getD "").data
    match findValuePat1 description with
    | some m => "~" ++ String.mk m
    | none =>
      match findValuePat2 description with
      | some m => "~" ++ String.mk m
      | none => "Not specified"

/-! ## `SAMIntegration._parse_location` (sam_scraper.py lines 199-215) -/

/-- Python `str()` of the value stored under the `city` key, used by the
fallback branch of `_parse_location`.  A dict renders as
`{'name': ...}`; the braces and quotes are built from character codes. -/
def cityFallbackRendering : RawCity → String
  | .other r => r
  | .dict name =>
    let q : Char := Char.ofNat 39
    let inner := match name with
      | some s => String.mk ([q] ++ "name".data ++ [q, ':', ' ', q] ++ s.data ++ [q])
      | none => String.mk ([q] ++ "name".data ++ [q, ':', ' '] ++ "None".data)
    String.mk [Char.ofNat 123] ++ inner ++ String.mk [Char.ofNat 125]

/-- Embedding of `SAMIntegration._parse_location`.  The argument is `none`
when the raw record has no `placeOfPerformance` key (the source then passes
`{}`, which is falsy, like an empty dict value).  -/
def parse_location (location_data : Option RawLocation) : String :=
  match location_data with
  | none => "Not specified"
  | some loc =>
    if loc.city = none && loc.state = none then "Not specified"
    else
      let cityStr :=
        match loc.city with
        | some (.dict name) => name.getD ""
        | some (.other _) => ""
        | none => ""
      let isDictCity :=
        match loc.city with
        | some (.other _) => false
        | _ => true
      let stateStr := (loc.state.getD none).getD ""
      if isDictCity && cityStr ≠ "" && stateStr ≠ "" then cityStr ++ ", " ++ stateStr
      else if isDictCity && cityStr ≠ "" then cityStr
      else
        match loc.city with
        | some c => cityFallbackRendering c
        | none => "Not specified"

/-! ## `SAMIntegration._parse_opportunities` (sam_scraper.py lines 84-127) -/

/-- Embedding of the body of the `for item in raw_data` loop of
`_parse_opportunities`: normalization of one raw record. -/
def parse_opportunity (item : RawOpp) : Opportunity :=
  let primary_contact := item.pointOfContact.head?
  { id := item.noticeId.getD (item.solicitationNumber.getD "")
    title := clean_text (item.title.getD "")
    agency := clean_text (item.departmentName.getD "")
    office := clean_text (item.subTier.getD "")
    solicitationNumber := item.solicitationNumber.getD ""
    naics := item.naicsCode.getD ""
    naicsDescription := clean_text (item.naicsCodeDescription.getD "")
    setAsideType := parse_set_aside (item.typeOfSetAside.getD "")
    dueDate := item.responseDeadLine.getD ""
    postedDate := item.postedDate.getD ""
    estimatedValue := parse_estimated_value item
    placeOfPerformance := parse_location item.placeOfPerformance
    description := clean_text (item.description.getD "")
    url := item.uiLink.getD ""
    type := item.noticeType.getD ""
    contactInfo :=
      { name := clean_text ((primary_contact.bind (fun c => c.fullName)).getD "")
        email := (primary_contact.bind (fun c => c.email)).getD ""
        phone := clean_phone ((primary_contact.bind (fun c => c.phone)).getD "") }
    additionalInfo :=
      { classificationCode := item.classificationCode.getD ""
        organizationType := item.organizationType.getD ""
        state := item.state.getD "" } }

/-- Embedding of `SAMIntegration._parse_opportunities` (the whole loop). -/
def parse_opportunities (raw_data : List RawOpp) : List Opportunity :=
  raw_data.map parse_opportunity

/-- A raw record with every key absent (the empty JSON object). -/
def emptyRawOpp : RawOpp :=
  { noticeId := none, solicitationNumber := none, title := none,
    departmentName := none, subTier := none, naicsCode := none,
    naicsCodeDescription := none, typeOfSetAside := none,
    responseDeadLine := none, postedDate := none, awardAmount := none,
    estimatedValue := none, baseAndAllOptionsValue := none,
    placeOfPerformance := none, description := none, uiLink := none,
    noticeType := none, pointOfContact := [], classificationCode := none,
    organizationType := none, state := none }

/-! ## `SAMIntegration.fetch_opportunities` and `_get_fallback_data`
(sam_scraper.py lines 18-82 and 255-312)

The outbound HTTP call is the component's black-box boundary; its outcome
is an explicit parameter.  `ok data` is a 200 response whose
`opportunitiesData` parses to `data`; `httpError` is any non-200 status;
`netError` is any exception raised during the request.  The four fallback
date strings are parameters because the source computes them from the wall
clock (`datetime.now() + timedelta(...)`). -/

/-- Outcome of the SAM.gov search request. -/
inductive SamResponse where
  | ok (opportunitiesData : List RawOpp)
  | httpError (status : Nat) (body : String)
  | netError (msg : String)

/-- The wall-clock-dependent date strings of the two fallback records. -/
structure FallbackDates where
  due1 : String
  posted1 : String
  due2 : String
  posted2 : String

/-- Embedding of `SAMIntegration._get_fallback_data`: the fixed two-record
fallback set. -/
def get_fallback_data (dates : FallbackDates) : List Opportunity :=
  [{ id := "fallback-1"
     title := "IT Infrastructure Modernization Services"
     agency := "Department of Veterans Affairs"
     office := "Office of Information Technology"
     solicitationNumber := "36C10G24R0029"
     naics := "541512"
     naicsDescription := "Computer Systems Design Services"
     setAsideType := "SDVOSB"
     dueDate := dates.due1
     postedDate := dates.posted1
     estimatedValue := "$2.5M - $15M"
     placeOfPerformance := "Washington, DC"
     description := "The Department of Veterans Affairs is seeking qualified contractors to provide comprehensive IT infrastructure modernization services including cloud migration, cybersecurity implementation, and legacy system integration."
     url := "https://sam.gov"
     type := "Solicitation"
     contactInfo :=
       { name := "Sarah Johnson"
         email := "sarah.johnson@va.gov"
         phone := "(202) 555-0123" }
     additionalInfo :=
       { classificationCode := "R"
         organizationType := "Federal Agency"
         state := "DC" } },
   { id := "fallback-2"
     title := "Cybersecurity Assessment and Penetration Testing"
     agency := "Department of Homeland Security"
     office := "Cybersecurity and Infrastructure Security Agency"
     solicitationNumber := "70RSAT25R00000001"
     naics := "541690"
     naicsDescription := "Other Scientific and Technical Consulting Services"
     setAsideType := "Small Business"
     dueDate := dates.due2
     postedDate := dates.posted2
     estimatedValue := "$500K - $2M"
     placeOfPerformance := "Multiple Locations"
     description := "CISA requires comprehensive cybersecurity assessment services including vulnerability assessments, penetration testing, and security compliance audits for critical infrastructure systems."
     url := "https://sam.gov"
     type := "Combined Synopsis/Solicitation"
     contactInfo :=
       { name := "Michael Chen"
         email := "michael.chen@dhs.gov"
         phone := "(202) 555-0456" }
     additionalInfo :=
       { classificationCode := "R"
         organizationType := "Federal Agency"
         state := "DC" } }]

/-- Embedding of `SAMIntegration.fetch_opportunities`, after the request
has been issued: a 200 response is parsed and client-side agency filtering
is applied; every other status and every raised exception is recovered by
returning the fallback data.  Query construction (dates, NAICS and
set-aside parameters) only shapes the outbound request, which the response
parameter already abstracts. -/
def fetch_opportunities (response : SamResponse) (agency_filter : Option String)
    (dates : FallbackDates) : List Opportunity :=
  match response with
  | .ok data =>
    let opportunities := parse_opportunities data
    match agency_filter with
    | some a => opportunities.filter (fun opp => strContains (strLower opp.agency) (strLower a))
    | none => opportunities
  | .httpError _ _ => get_fallback_data dates
  | .netError _ => get_fallback_data dates

/-! ## `analyze_rfp_enhanced` (summarizer.py lines 10-94)

The completion call and the `json.loads` of its text are the analyzer's
black-box boundary: `content (some r)` is a completion whose content parses
as the JSON object `r`; `content none` is a completion whose content raises
`json.JSONDecodeError`; `svcError` is any other exception (network/service
failure).  The wall-clock `datetime.now().isoformat()` read on the success
path is the `now` parameter. -/

/-- JSON-like values appearing in an analysis result object. -/
inductive AVal where
  | str (s : String)
  | strList (xs : List String)
  | winProb (score : String) (reasoning : String)
  | null
deriving DecidableEq

/-- The structured opportunity context read by the summarizer and the
analyze endpoint (`opportunity_data`); `none` for the whole object models a
missing or empty (falsy) dict. -/
structure OppContext where
  title : Option String
  agency : Option String
  naics : Option String
  naicsDescription : Option String
  setAsideType : Option String
  estimatedValue : Option String
  dueDate : Option String
  id : Option String
deriving DecidableEq

/-- Outcome of the completion request combined with `json.loads` on its
content. -/
inductive LLMResult where
  | content (parsed : Option (List (String × AVal)))
  | svcError (msg : String)

/-- Python dict assignment `d[k] = v`: replace in place when the key
exists, append otherwise. -/
def setKey (l : List (String × AVal)) (k : String) (v : AVal) : List (String × AVal) :=
  if l.any (fun p => p.1 == k) then
    l.map (fun p => if p.1 == k then (p.1, v) else p)
  else l ++ [(k, v)]

/-- Python dict lookup `d.get(k)` on an analysis result object. -/
def lookupKey (k : String) (l : List (String × AVal)) : Option AVal :=
  (l.find? (fun p => p.1 == k)).map (fun p => p.2)

/-- The value stored under `opportunity_id` on the success path:
`opportunity_data.get("id") if opportunity_data else None`. -/
def oppIdVal : Option OppContext → AVal
  | some od => match od.id with | some s => .str s | none => .null
  | none => .null

/-- The placeholder returned by the `json.JSONDecodeError` branch of
`analyze_rfp_enhanced` (summarizer.py lines 66-79), verbatim. -/
def parse_failed_placeholder : List (String × AVal) :=
  [("error", .str "Failed to parse AI response"),
   ("executive_summary", .str "Analysis failed - invalid response format"),
   ("key_requirements", .strList ["Unable to analyze"]),
   ("technical_requirements", .strList ["Unable to analyze"]),
   ("evaluation_criteria", .strList ["Unable to analyze"]),
   ("compliance_requirements", .strList ["Unable to analyze"]),
   ("competitive_landscape", .str "Unable to assess"),
   ("win_probability", .winProb "Unknown" "Analysis failed"),
   ("recommended_actions", .strList ["Retry analysis"]),
   ("risk_factors", .strList ["Analysis incomplete"]),
   ("timeline_analysis", .str "Unable to analyze"),
   ("budget_considerations", .str "Unable to analyze")]

/-- The placeholder returned by the generic `except Exception` branch of
`analyze_rfp_enhanced` (summarizer.py lines 81-94), verbatim. -/
def service_error_placeholder (msg : String) : List (String × AVal) :=
  [("error", .str ("Analysis failed: " ++ msg)),
   ("executive_summary", .str "Analysis temporarily unavailable"),
   ("key_requirements", .strList ["Check back later"]),
   ("technical_requirements", .strList ["Check back later"]),
   ("evaluation_criteria", .strList ["Check back later"]),
   ("compliance_requirements", .strList ["Check back later"]),
   ("competitive_landscape", .str "Unable to assess"),
   ("win_probability", .winProb "Unknown" "Service unavailable"),
   ("recommended_actions", .strList ["Try again later"]),
   ("risk_factors", .strList ["Service interruption"]),
   ("timeline_analysis", .str "Unable to analyze"),
   ("budget_considerations", .str "Unable to analyze")]

/-- Embedding of `analyze_rfp_enhanced`.  Prompt construction (context
rendering and the 8000-character truncation of the RFP text) only shapes
the outbound completion request, which the `llm` parameter abstracts; the
observable result is the parsed object plus the two metadata keys on
success, or one of the two fixed placeholders. -/
def analyze_rfp_enhanced (rfp_text : String) (opportunity_data : Option OppContext)
    (now : String) (llm : LLMResult) : List (String × AVal) :=
  match llm with
  | .content (some result) =>
    setKey (setKey result "analysis_date" (.str now)) "opportunity_id" (oppIdVal opportunity_data)
  | .content none => parse_failed_placeholder
  | .svcError msg => service_error_placeholder msg

/-! ## The `/analyze` endpoint handler (main.py lines 70-84)

In FastAPI, `HTTPException` is a subclass of `Exception`, so a raise of
`HTTPException(400, ...)` inside the handler's `try` block is caught by the
handler's own `except Exception` clause on line 83 and re-raised as a 500.
The embedding makes that control flow explicit. -/

/-- A Python exception as far as this handler can observe it. -/
inductive PyExn where
  | http (status : Nat) (detail : String)
  | other (msg : String)

/-- Python `str(e)` for the exceptions the handler can catch (Starlette
renders an `HTTPException` as `"<status>: <detail>"`). -/
def strOfExn : PyExn → String
  | .http status detail => toString status ++ ": " ++ detail
  | .other msg => msg

/-- The observable response of an HTTP handler. -/
inductive HandlerResult (α : Type) where
  | ok (body : α)
  | httpError (status : Nat) (detail : String)
deriving DecidableEq

/-- Embedding of the `analyze_opportunity` handler: the `try` block either
raises the 400 validation `HTTPException` or returns the analysis; the
`except Exception` clause converts anything raised — including that 400 —
into a 500 `HTTPException`. -/
def analyze_opportunity (rfp_text : String) (opportunity_data : Option OppContext)
    (now : String) (llm : LLMResult) : HandlerResult (List (String × AVal)) :=
  let tryBlock : Except PyExn (List (String × AVal)) :=
    if rfp_text = "" && opportunity_data.isNone then
      .error (.http 400 "Either rfp_text or opportunity_data is required")
    else
      .ok (analyze_rfp_enhanced rfp_text opportunity_data now llm)
  match tryBlock with
  | .ok body => .ok body
  | .error e => .httpError 500 ("Analysis failed: " ++ strOfExn e)

/-! ## `days_until_due` (main.py lines 130-138) and the due-soon stat
(main.py line 95)

`datetime.fromisoformat` is modelled by an executable parser for its
documented input grammar
`YYYY-MM-DD[*HH[:MM[:SS[.fff[fff]]]][±HH:MM[:SS[.ffffff]]]]`, where `*`
is any single separator character, the fractional-seconds field has
exactly three or six digits, and the offset magnitude must be less than
24 hours (CPython builds the offset from unrange-checked two-digit fields
and validates only the resulting `timezone` bound, while the time-of-day
fields go through the `time` constructor's 0-23/0-59/0-59 checks).  The
result is microseconds since the epoch on a single linear scale — the
resolution of Python's `datetime` — with offset-aware values normalized
by their offset; the naive/aware distinction is immaterial because the
source subtracts `datetime.now(due_date.tzinfo)`, which shares the
parsed offset.  This covers in particular the repository's own fallback
`dueDate` format `isoformat() + "Z"` with microseconds, hour-only times,
and non-`T` separators.  The grammar modelled is the one `isoformat()`
emits and CPython accepts on every version; CPython 3.11+ additionally
accepts further ISO-8601 shapes (basic-format dates, week dates,
1-to-6-digit fractions) that no component of this system produces and
that the model, like CPython 3.10 and earlier, rejects. -/

/-- Read exactly `n` leading digits as a number, returning the rest. -/
def takeDigits (n : Nat) (cs : List Char) : Option (Nat × List Char) :=
  let pre := cs.take n
  if pre.length = n && pre.all Char.isDigit then
    some (pre.foldl (fun a c => a * 10 + (c.toNat - '0'.toNat)) 0, cs.drop n)
  else none

/-- Day count of a month in the proleptic Gregorian calendar. -/
def daysInMonth (y m : Nat) : Nat :=
  if m = 2 then
    if (y % 4 = 0 && y % 100 ≠ 0) || y % 400 = 0 then 29 else 28
  else if m = 4 || m = 6 || m = 9 || m = 11 then 30
  else 31

/-- Days from 1970-01-01 to year/month/day (civil-from-days algorithm). -/
def daysFromCivil (y : Int) (m d : Nat) : Int :=
  let y2 : Int := if (m : Int) ≤ 2 then y - 1 else y
  let era : Int := (if 0 ≤ y2 then y2 else y2 - 399).tdiv 400
  let yoe : Int := y2 - era * 400
  let mp : Int := ((m : Int) + 9) % 12
  let doy : Int := (153 * mp + 2).tdiv 5 + (d : Int) - 1
  let doe : Int := yoe * 365 + yoe.tdiv 4 - yoe.tdiv 100 + doy
  era * 146097 + doe - 719468

/-- Numeric value of a digit run. -/
def digitsToNat (cs : List Char) : Nat :=
  cs.foldl (fun a c => a * 10 + (c.toNat - '0'.toNat)) 0

/-- The fractional-seconds field after the decimal point: exactly three
digits (milliseconds) or exactly six digits (microseconds), as CPython's
length check admits; the value is returned in microseconds. -/
def parseFracMicros (cs : List Char) : Option (Int × List Char) :=
  let run := cs.takeWhile Char.isDigit
  if run.length = 3 then some ((digitsToNat run : Int) * 1000, cs.drop 3)
  else if run.length = 6 then some ((digitsToNat run : Int), cs.drop 6)
  else none

/-- A trailing UTC offset `±HH:MM[:SS[.ffffff]]` in microseconds; the
empty rest means a naive timestamp (offset 0 on the shared scale).  The
two-digit fields are not individually range-checked — CPython only
requires the resulting offset magnitude to be under 24 hours. -/
def parseOffsetMicros : List Char → Option Int
  | [] => some 0
  | c :: rest =>
    if c = '+' || c = '-' then
      match takeDigits 2 rest with
      | some (oh, ':' :: r2) =>
        match takeDigits 2 r2 with
        | some (om, r3) =>
          let tail : Option (Nat × Int) :=
            match r3 with
            | ':' :: r4 =>
              match takeDigits 2 r4 with
              | some (os, '.' :: r5) =>
                match parseFracMicros r5 with
                | some (frac, []) => if (r5.takeWhile Char.isDigit).length = 6 then some (os, frac) else none
                | _ => none
              | some (os, []) => some (os, 0)
              | _ => none
            | [] => some (0, 0)
            | _ => none
          match tail with
          | some (os, frac) =>
            let magnitude : Int := ((oh * 3600 + om * 60 + os : Nat) : Int) * 1000000 + frac
            if magnitude < 86400000000 then
              some ((if c = '-' then -1 else 1) * magnitude)
            else none
          | none => none
        | none => none
      | _ => none
    else none

/-- The time-of-day part `HH[:MM[:SS[.fff[fff]]]]` with an optional
trailing offset; returns microseconds into the day and the offset in
microseconds.  Hour-only and hour-minute times are admitted, as CPython's
length check allows. -/
def parseTimeMicros (cs : List Char) : Option (Int × Int) :=
  match takeDigits 2 cs with
  | some (h, rest1) =>
    let finish : Nat → Nat → Nat → Int → List Char → Option (Int × Int) :=
      fun hh mm ss frac r =>
        match parseOffsetMicros r with
        | some off =>
          if hh ≤ 23 && mm ≤ 59 && ss ≤ 59 then
            some (((hh * 3600 + mm * 60 + ss : Nat) : Int) * 1000000 + frac, off)
          else none
        | none => none
    match rest1 with
    | ':' :: r2 =>
      match takeDigits 2 r2 with
      | some (mi, rest2) =>
        match rest2 with
        | ':' :: r3 =>
          match takeDigits 2 r3 with
          | some (s, '.' :: r4) =>
            match parseFracMicros r4 with
            | some (frac, rest4) => finish h mi s frac rest4
            | none => none
          | some (s, rest3) => finish h mi s 0 rest3
          | none => none
        | _ => finish h mi 0 0 rest2
      | none => none
    | _ => finish h 0 0 0 rest1
  | none => none

/-- Model of `datetime.fromisoformat` over its documented grammar: the
date `YYYY-MM-DD`, optionally followed by one separator character of any
kind and a time of day with optional offset.  The result is microseconds
since the epoch on a single scale (offset-aware values are normalized by
their offset). -/
def fromIsoFormat (s : String) : Option Int :=
  match takeDigits 4 s.data with
  | some (y, '-' :: r1) =>
    match takeDigits 2 r1 with
    | some (mo, '-' :: r2) =>
      match takeDigits 2 r2 with
      | some (d, rest) =>
        if 1 ≤ y && 1 ≤ mo && mo ≤ 12 && 1 ≤ d && d ≤ daysInMonth y mo then
          match rest with
          | [] => some (daysFromCivil (y : Int) mo d * 86400000000)
          | _ :: tr =>
            match parseTimeMicros tr with
            | some (micros, off) =>
              some (daysFromCivil (y : Int) mo d * 86400000000 + micros - off)
            | none => none
        else none
      | _ => none
    | _ => none
  | _ => none

/-- Embedding of `days_until_due`: `now` is the wall-clock reading of
`datetime.now(...)` in microseconds on the same scale.  `timedelta.days`
floors toward negative infinity, which for the positive divisor
86400000000 is Lean's Euclidean `/` on `Int`. -/
def days_until_due (now : Int) (due_date_str : String) : Int :=
  match fromIsoFormat (pyReplace due_date_str "Z" "+00:00") with
  | none => 999
  | some due => max 0 ((due - now) / 86400000000)

/-- The due-soon predicate of `get_dashboard_stats` (main.py line 95): an
opportunity counts as due soon when `days_until_due` is at most 14. -/
def dueSoon (now : Int) (due_date_str : String) : Bool :=
  days_until_due now due_date_str ≤ 14

/-- A concrete opportunity carrying every scoring bonus: an IT NAICS
prefix, an SDVOSB set-aside, and all five high-value keywords. -/
def fullBonusOpp : Opportunity :=
  { id := "opp-max"
    title := "Cloud Cybersecurity and Infrastructure Support"
    agency := "General Services Administration"
    office := ""
    solicitationNumber := ""
    naics := "541512"
    naicsDescription := ""
    setAsideType := "SDVOSB"
    dueDate := ""
    postedDate := ""
    estimatedValue := ""
    placeOfPerformance := ""
    description := "modernization of digital services"
    url := ""
    type := ""
    contactInfo := { name := "", email := "", phone := "" }
    additionalInfo := { classificationCode := "", organizationType := "", state := "" } }

/-! ## Claims -/

/-- C1: contrary to the claim, a call to the analyze endpoint with both
`rfp_text` and `opportunity_data` empty is answered with a 500 server
error, not a 400 client error: the 400 `HTTPException` raised on line 78
of main.py is caught by the handler's own `except Exception` on line 83
and re-raised as a 500.  No placeholder `AnalysisResult` is returned
either way. -/
theorem analyze_empty_inputs_yields_500_not_400 :
    ∀ (now : String) (llm : LLMResult),
      analyze_opportunity "" none now llm =
        .httpError 500 "Analysis failed: 400: Either rfp_text or opportunity_data is required" := by
  intro now llm
  rfl

/-- C2 counterexample: the source formats 2500 as `$2K`, not the `$3K`
the claim states, because Python `.0f` formatting rounds 2.5 half to
even. -/
theorem format_currency_2500_is_2K_not_3K :
    format_currency 2500 = "$2K" ∧ "$2K" ≠ "$3K" := by
  constructor
  · have h : ⌊(2500 : ℚ) / 1000⌋ = 2 := by norm_num
    simp only [format_currency, formatFixed0, roundHalfEven, h]
    norm_num
    rfl
  · decide

/-- C2 amended: the magnitude bands are as claimed — one decimal with B/M
suffixes, a no-decimal K band, thousands separators below 1000 — but the
no-decimal rounding is half-to-even, so 2500 formats as `$2.5K`→`$2K`
(while 2.5e9 and 2.5e6 keep their `.5` and 250 is unchanged). -/
theorem format_currency_magnitude_bands :
    format_currency 2500000000 = "$2.5B" ∧
    format_currency 2500000 = "$2.5M" ∧
    format_currency 2500 = "$2K" ∧
    format_currency 250 = "$250" ∧
    (∀ a : ℚ, 1000000000 ≤ a →
      format_currency a = "$" ++ formatFixed1 (a / 1000000000) ++ "B") ∧
    (∀ a : ℚ, 1000000 ≤ a → a < 1000000000 →
      format_currency a = "$" ++ formatFixed1 (a / 1000000) ++ "M") ∧
    (∀ a : ℚ, 1000 ≤ a → a < 1000000 →
      format_currency a = "$" ++ toString (roundHalfEven (a / 1000)) ++ "K") ∧
    (∀ a : ℚ, a < 1000 → format_currency a = "$" ++ formatComma0 a) := by
  refine ⟨?_, ?_, ?_, ?_, ?_, ?_, ?_, ?_⟩
  · have h : ⌊(2500000000 : ℚ) / 1000000000 * 10⌋ = 25 := by norm_num
    simp only [format_currency, formatFixed1, roundHalfEven, h]
    norm_num
    rfl
  · have h : ⌊(2500000 : ℚ) / 1000000 * 10⌋ = 25 := by norm_num
    simp only [format_currency, formatFixed1, roundHalfEven, h]
    norm_num
    rfl
  · have h : ⌊(2500 : ℚ) / 1000⌋ = 2 := by norm_num
    simp only [format_currency, formatFixed0, roundHalfEven, h]
    norm_num
    rfl
  · have h : ⌊(250 : ℚ)⌋ = 250 := by norm_num
    simp only [format_currency, formatComma0, roundHalfEven, h]
    norm_num
    rfl
  · intro a h
    unfold format_currency
    rw [if_pos h]
  · intro a h1 h2
    unfold format_currency
    rw [if_neg (by linarith), if_pos h1]
  · intro a h1 h2
    unfold format_currency
    rw [if_neg (by linarith), if_neg (by linarith), if_pos h1]
    rfl
  · intro a h
    unfold format_currency
    rw [if_neg (by linarith), if_neg (by linarith), if_neg (by linarith)]

/-- C2 witness: the K band applied at the concrete amount 2500. -/
theorem format_currency_magnitude_bands_witness :
    (1000 : ℚ) ≤ 2500 ∧ (2500 : ℚ) < 1000000 ∧
      format_currency 2500 = "$" ++ toString (roundHalfEven ((2500 : ℚ) / 1000)) ++ "K" :=
  ⟨by norm_num, by norm_num,
    format_currency_magnitude_bands.2.2.2.2.2.2.1 2500 (by norm_num) (by norm_num)⟩

/-- C3 counterexample: on a parse failure the placeholder contains neither
an `analysis_date` nor an `opportunity_id` key, even when the opportunity
context carries a derivable id — the metadata keys are only attached on
the success path (summarizer.py lines 60-61 are inside the `try`). -/
theorem parse_failed_placeholder_lacks_metadata :
    lookupKey "analysis_date"
      (analyze_rfp_enhanced "Sample RFP text"
        (some ⟨some "Title", none, none, none, none, none, none, some "opp-1"⟩)
        "2024-06-01T12:00:00" (.content none)) = none ∧
    lookupKey "opportunity_id"
      (analyze_rfp_enhanced "Sample RFP text"
        (some ⟨some "Title", none, none, none, none, none, none, some "opp-1"⟩)
        "2024-06-01T12:00:00" (.content none)) = none := by
  exact ⟨rfl, rfl⟩

/-- C3 amended: on a completion response that does not parse as JSON, the
analyzer returns exactly the fixed parse-failed placeholder, whose
`win_probability.score` is `Unknown`; `analysis_date` and
`opportunity_id` are absent from that placeholder (they are populated
only on the success path). -/
theorem analyze_parse_failure_returns_placeholder :
    ∀ (rfp_text : String) (od : Option OppContext) (now : String),
      analyze_rfp_enhanced rfp_text od now (.content none) = parse_failed_placeholder ∧
      lookupKey "win_probability" (analyze_rfp_enhanced rfp_text od now (.content none)) =
        some (.winProb "Unknown" "Analysis failed") ∧
      lookupKey "analysis_date" (analyze_rfp_enhanced rfp_text od now (.content none)) = none ∧
      lookupKey "opportunity_id" (analyze_rfp_enhanced rfp_text od now (.content none)) = none := by
  intro rfp_text od now
  exact ⟨rfl, rfl, rfl, rfl⟩

/-- C4 counterexample: the claim's blanket case-insensitivity fails for the
`8(a)` pattern — the source tests `"8(a)" in set_aside_text` against the
original text (sam_scraper.py line 194), so `8(A)` passes through
unchanged where a fully case-insensitive match would normalize it. -/
theorem set_aside_8A_not_case_insensitive :
    parse_set_aside "8(A)" = "8(A)" ∧
    specSetAsideClaim "8(A)" = "8(a)" ∧
    ("8(A)" : String) ≠ "8(a)" := by
  exact ⟨rfl, rfl, by decide⟩

/-- C4 amended: set-aside normalization is a priority-ordered substring
match — the four alias groups case-insensitively, the literal `8(a)`
case-sensitively against the original text — with empty input mapping to
`Open Competition`, non-matching input passing through unchanged, and
`Service-Disabled Veteran-Owned Small Business` normalizing to `SDVOSB`
rather than `Small Business`. -/
theorem parse_set_aside_priority_match :
    (∀ s, parse_set_aside s = specSetAsideAmended s) ∧
    parse_set_aside "Service-Disabled Veteran-Owned Small Business" = "SDVOSB" ∧
    parse_set_aside "" = "Open Competition" ∧
    parse_set_aside "Unrestricted" = "Unrestricted" := by
  refine ⟨?_, by decide, rfl, by decide⟩
  intro s
  by_cases hs : s = ""
  · simp [parse_set_aside, specSetAsideAmended, hs]
  · simp only [parse_set_aside, specSetAsideAmended, priorityMatch, setAsidePriorityTable,
      hs, if_false, List.any_cons, List.any_nil, Bool.or_false]
    split_ifs <;> rfl

/-- C5: the scorer computes exactly the claimed formula — base 0.5, plus
0.3 for an IT NAICS prefix, plus the mutually exclusive 0.2/0.1 set-aside
bonus, plus 0.05 per matched keyword capped at 0.2, the sum clamped to at
most 1 — and a record with no matching signal scores the bare base 0.5. -/
theorem match_score_formula :
    (∀ opp : Opportunity, calculate_basic_match_score opp = matchScoreSpec opp) ∧
    calculate_basic_match_score (parse_opportunity emptyRawOpp) = 0.5 := by
  constructor
  · exact score_characterization
  · rw [score_characterization]
    simp only [matchScoreSpec]
    rw [show itNaics (parse_opportunity emptyRawOpp).naics = false from by decide]
    rw [show setAsideBonus (parse_opportunity emptyRawOpp).setAsideType = 0 from by
          simp only [setAsideBonus]
          rw [if_neg (by decide), if_neg (by decide)]]
    rw [show keywordCount (parse_opportunity emptyRawOpp).title
          (parse_opportunity emptyRawOpp).description = 0 from by decide]
    norm_num [min_def]

/-- C8: every non-200 response and every exception raised during the
SAM.gov request makes `fetch_opportunities` return the hardcoded fallback
set — it never raises past the component — and that set always has
exactly two records, whatever wall-clock dates the fallback records
carry. -/
theorem fetch_failure_returns_two_fallback_records :
    (∀ (status : Nat) (body : String) (agency : Option String) (dates : FallbackDates),
      fetch_opportunities (.httpError status body) agency dates = get_fallback_data dates) ∧
    (∀ (msg : String) (agency : Option String) (dates : FallbackDates),
      fetch_opportunities (.netError msg) agency dates = get_fallback_data dates) ∧
    (∀ dates : FallbackDates, (get_fallback_data dates).length = 2) := by
  exact ⟨fun _ _ _ _ => rfl, fun _ _ _ => rfl, fun _ => rfl⟩

/-- C6: replacing an opportunity's NAICS code by a matching IT code never
decreases the score; every score lies in the interval from 0 to 1; and an
opportunity carrying all the bonuses — whose unclamped sum is
0.5+0.3+0.2+0.2 = 1.2 — scores exactly 1. -/
theorem match_score_monotone_and_bounded :
    (∀ (opp : Opportunity) (c : String), itNaics c = true →
      calculate_basic_match_score opp ≤ calculate_basic_match_score { opp with naics := c }) ∧
    (∀ opp : Opportunity,
      0 ≤ calculate_basic_match_score opp ∧ calculate_basic_match_score opp ≤ 1) ∧
    calculate_basic_match_score fullBonusOpp = 1 := by
  refine ⟨?_, ?_, ?_⟩
  · intro opp c h
    rw [score_characterization, score_characterization]
    show min 1 (0.5 + (if itNaics opp.naics = true then (0.3 : ℚ) else 0)
        + setAsideBonus opp.setAsideType
        + min 0.2 ((keywordCount opp.title opp.description : ℚ) * 0.05)) ≤
      min 1 (0.5 + (if itNaics c = true then (0.3 : ℚ) else 0)
        + setAsideBonus opp.setAsideType
        + min 0.2 ((keywordCount opp.title opp.description : ℚ) * 0.05))
    rw [if_pos h]
    apply min_le_min le_rfl
    have hb : (if itNaics opp.naics = true then (0.3 : ℚ) else 0) ≤ 0.3 := by
      split_ifs <;> norm_num
    linarith
  · intro opp
    rw [score_characterization]
    simp only [matchScoreSpec]
    constructor
    · refine le_min (by norm_num) ?_
      have hb : (0 : ℚ) ≤ if itNaics opp.naics = true then (0.3 : ℚ) else 0 := by
        split_ifs <;> norm_num
      have hs : (0 : ℚ) ≤ setAsideBonus opp.setAsideType := by
        simp only [setAsideBonus]
        split_ifs <;> norm_num
      have hk : (0 : ℚ) ≤
          min 0.2 ((keywordCount opp.title opp.description : ℚ) * 0.05) := by
        refine le_min (by norm_num) ?_
        positivity
      linarith
    · exact min_le_left _ _
  · rw [score_characterization]
    simp only [matchScoreSpec]
    simp only [show itNaics fullBonusOpp.naics = true from by decide,
      show keywordCount fullBonusOpp.title fullBonusOpp.description = 5 from by decide,
      show setAsideBonus fullBonusOpp.setAsideType = 0.2 from by
        simp only [setAsideBonus]
        rw [if_pos (by decide)]]
    norm_num [min_def]

/-- C6 witness: the monotonicity statement applied to the fully defaulted
record and the concrete IT NAICS code 541512. -/
theorem match_score_monotone_witness :
    itNaics "541512" = true ∧
    calculate_basic_match_score (parse_opportunity emptyRawOpp) ≤
      calculate_basic_match_score { parse_opportunity emptyRawOpp with naics := "541512" } :=
  ⟨by decide,
    match_score_monotone_and_bounded.1 (parse_opportunity emptyRawOpp) "541512" (by decide)⟩

/-- C7: phone cleaning formats exactly 10 extracted digits as
`(NNN) NNN-NNNN`, drops the leading 1 of an 11-digit number starting with
1, and returns every other input untouched; in particular `2025550123`,
`12025550123` and `555` behave as claimed. -/
theorem clean_phone_formats :
    clean_phone "2025550123" = "(202) 555-0123" ∧
    clean_phone "12025550123" = "(202) 555-0123" ∧
    clean_phone "555" = "555" ∧
    (∀ s, (phoneDigits s).length = 10 →
      clean_phone s = "(" ++ String.mk ((phoneDigits s).take 3) ++ ") " ++
        String.mk (((phoneDigits s).drop 3).take 3) ++ "-" ++
        String.mk ((phoneDigits s).drop 6)) ∧
    (∀ s, (phoneDigits s).length = 11 → (phoneDigits s).head? = some '1' →
      clean_phone s = "(" ++ String.mk (((phoneDigits s).drop 1).take 3) ++ ") " ++
        String.mk (((phoneDigits s).drop 4).take 3) ++ "-" ++
        String.mk ((phoneDigits s).drop 7)) ∧
    (∀ s, (phoneDigits s).length ≠ 10 →
      ¬((phoneDigits s).length = 11 ∧ (phoneDigits s).head? = some '1') →
      clean_phone s = s) := by
  refine ⟨by decide, by decide, by decide, ?_, ?_, ?_⟩
  · intro s h
    by_cases hs : s = ""
    · rw [hs] at h
      exact absurd h (by decide)
    · simp only [clean_phone, if_neg hs]
      rw [if_pos h]
  · intro s h hhead
    by_cases hs : s = ""
    · rw [hs] at h
      exact absurd h (by decide)
    · simp only [clean_phone, if_neg hs]
      rw [if_neg (by omega), if_pos (by simp [h, hhead])]
  · intro s h10 h11
    by_cases hs : s = ""
    · rw [hs]
      rfl
    · simp only [clean_phone, if_neg hs]
      rw [if_neg h10, if_neg (by simp only [Bool.and_eq_true, decide_eq_true_eq]; exact h11)]

/-- C7 witness: the pass-through case applied at the concrete input
`555`, whose three extracted digits are neither 10 nor 11 in number. -/
theorem clean_phone_formats_witness :
    (phoneDigits "555").length ≠ 10 ∧ clean_phone "555" = "555" :=
  ⟨by decide,
    clean_phone_formats.2.2.2.2.2 "555" (by decide) (by decide)⟩

/-- C9 counterexample: a raw record missing `typeOfSetAside` is normalized
with `setAsideType = "Open Competition"`, which is neither the empty
string nor `Not specified` — the claim's enumeration of the defaults is
incomplete for this field. -/
theorem normalize_set_aside_default_is_open_competition :
    (parse_opportunity emptyRawOpp).setAsideType = "Open Competition" ∧
    ("Open Competition" : String) ≠ "" ∧
    ("Open Competition" : String) ≠ "Not specified" := by
  exact ⟨rfl, by decide, by decide⟩

/-- C9 amended: normalization is total — the output record always carries
every field of the stable shape as a string, including the nested
`contactInfo` and `additionalInfo` — and every missing input field is
defaulted: to the empty string for plain text, identifier, date, URL and
contact fields, to `Not specified` for `estimatedValue` (when all of its
source fields are absent) and `placeOfPerformance`, and to
`Open Competition` for `setAsideType`. -/
theorem normalize_missing_fields_default (item : RawOpp) :
    (item.noticeId = none → item.solicitationNumber = none →
      (parse_opportunity item).id = "") ∧
    (item.title = none → (parse_opportunity item).title = "") ∧
    (item.departmentName = none → (parse_opportunity item).agency = "") ∧
    (item.subTier = none → (parse_opportunity item).office = "") ∧
    (item.solicitationNumber = none → (parse_opportunity item).solicitationNumber = "") ∧
    (item.naicsCode = none → (parse_opportunity item).naics = "") ∧
    (item.naicsCodeDescription = none → (parse_opportunity item).naicsDescription = "") ∧
    (item.typeOfSetAside = none → (parse_opportunity item).setAsideType = "Open Competition") ∧
    (item.responseDeadLine = none → (parse_opportunity item).dueDate = "") ∧
    (item.postedDate = none → (parse_opportunity item).postedDate = "") ∧
    (item.awardAmount = none → item.estimatedValue = none →
      item.baseAndAllOptionsValue = none → item.description = none →
      (parse_opportunity item).estimatedValue = "Not specified") ∧
    (item.placeOfPerformance = none →
      (parse_opportunity item).placeOfPerformance = "Not specified") ∧
    (item.description = none → (parse_opportunity item).description = "") ∧
    (item.uiLink = none → (parse_opportunity item).url = "") ∧
    (item.noticeType = none → (parse_opportunity item).type = "") ∧
    (item.pointOfContact = [] →
      (parse_opportunity item).contactInfo = { name := "", email := "", phone := "" }) ∧
    (item.classificationCode = none →
      (parse_opportunity item).additionalInfo.classificationCode = "") ∧
    (item.organizationType = none →
      (parse_opportunity item).additionalInfo.organizationType = "") ∧
    (item.state = none → (parse_opportunity item).additionalInfo.state = "") := by
  refine ⟨?_, ?_, ?_, ?_, ?_, ?_, ?_, ?_, ?_, ?_, ?_, ?_, ?_, ?_, ?_, ?_, ?_, ?_, ?_⟩
  · intro h1 h2
    show item.noticeId.getD (item.solicitationNumber.getD "") = ""
    rw [h1, h2]
    rfl
  · intro h
    show clean_text (item.title.getD "") = ""
    rw [h]
    rfl
  · intro h
    show clean_text (item.departmentName.getD "") = ""
    rw [h]
    rfl
  · intro h
    show clean_text (item.subTier.getD "") = ""
    rw [h]
    rfl
  · intro h
    show item.solicitationNumber.getD "" = ""
    rw [h]
    rfl
  · intro h
    show item.naicsCode.getD "" = ""
    rw [h]
    rfl
  · intro h
    show clean_text (item.naicsCodeDescription.getD "") = ""
    rw [h]
    rfl
  · intro h
    show parse_set_aside (item.typeOfSetAside.getD "") = "Open Competition"
    rw [h]
    rfl
  · intro h
    show item.responseDeadLine.getD "" = ""
    rw [h]
    rfl
  · intro h
    show item.postedDate.getD "" = ""
    rw [h]
    rfl
  · intro h1 h2 h3 h4
    show parse_estimated_value item = "Not specified"
    simp only [parse_estimated_value, h1, h2, h3, h4]
    rfl
  · intro h
    show parse_location item.placeOfPerformance = "Not specified"
    rw [h]
    rfl
  · intro h
    show clean_text (item.description.getD "") = ""
    rw [h]
    rfl
  · intro h
    show item.uiLink.getD "" = ""
    rw [h]
    rfl
  · intro h
    show item.noticeType.getD "" = ""
    rw [h]
    rfl
  · intro h
    show ({ name := clean_text ((item.pointOfContact.head?.bind (fun c => c.fullName)).getD "")
            email := (item.pointOfContact.head?.bind (fun c => c.email)).getD ""
            phone := clean_phone ((item.pointOfContact.head?.bind (fun c => c.phone)).getD "") }
          : ContactInfo) = { name := "", email := "", phone := "" }
    rw [h]
    rfl
  · intro h
    show item.classificationCode.getD "" = ""
    rw [h]
    rfl
  · intro h
    show item.organizationType.getD "" = ""
    rw [h]
    rfl
  · intro h
    show item.state.getD "" = ""
    rw [h]
    rfl

/-- C9 witness: the amended statement applied to the raw record with every
key absent, producing the fully defaulted normalized record. -/
theorem normalize_missing_fields_default_witness :
    (parse_opportunity emptyRawOpp).id = "" ∧
    (parse_opportunity emptyRawOpp).title = "" ∧
    (parse_opportunity emptyRawOpp).agency = "" ∧
    (parse_opportunity emptyRawOpp).office = "" ∧
    (parse_opportunity emptyRawOpp).solicitationNumber = "" ∧
    (parse_opportunity emptyRawOpp).naics = "" ∧
    (parse_opportunity emptyRawOpp).naicsDescription = "" ∧
    (parse_opportunity emptyRawOpp).setAsideType = "Open Competition" ∧
    (parse_opportunity emptyRawOpp).dueDate = "" ∧
    (parse_opportunity emptyRawOpp).postedDate = "" ∧
    (parse_opportunity emptyRawOpp).estimatedValue = "Not specified" ∧
    (parse_opportunity emptyRawOpp).placeOfPerformance = "Not specified" ∧
    (parse_opportunity emptyRawOpp).description = "" ∧
    (parse_opportunity emptyRawOpp).url = "" ∧
    (parse_opportunity emptyRawOpp).type = "" ∧
    (parse_opportunity emptyRawOpp).contactInfo = { name := "", email := "", phone := "" } ∧
    (parse_opportunity emptyRawOpp).additionalInfo.classificationCode = "" ∧
    (parse_opportunity emptyRawOpp).additionalInfo.organizationType = "" ∧
    (parse_opportunity emptyRawOpp).additionalInfo.state = "" := by
  have h := normalize_missing_fields_default emptyRawOpp
  exact ⟨h.1 rfl rfl, h.2.1 rfl, h.2.2.1 rfl, h.2.2.2.1 rfl, h.2.2.2.2.1 rfl,
    h.2.2.2.2.2.1 rfl, h.2.2.2.2.2.2.1 rfl, h.2.2.2.2.2.2.2.1 rfl,
    h.2.2.2.2.2.2.2.2.1 rfl, h.2.2.2.2.2.2.2.2.2.1 rfl,
    h.2.2.2.2.2.2.2.2.2.2.1 rfl rfl rfl rfl,
    h.2.2.2.2.2.2.2.2.2.2.2.1 rfl, h.2.2.2.2.2.2.2.2.2.2.2.2.1 rfl,
    h.2.2.2.2.2.2.2.2.2.2.2.2.2.1 rfl, h.2.2.2.2.2.2.2.2.2.2.2.2.2.2.1 rfl,
    h.2.2.2.2.2.2.2.2.2.2.2.2.2.2.2.1 rfl,
    h.2.2.2.2.2.2.2.2.2.2.2.2.2.2.2.2.1 rfl,
    h.2.2.2.2.2.2.2.2.2.2.2.2.2.2.2.2.2.1 rfl,
    h.2.2.2.2.2.2.2.2.2.2.2.2.2.2.2.2.2.2 rfl⟩

/-- C10: the days-until-due helper is total — a due-date string the ISO
parser rejects yields 999, so the stats operation never counts it as due
soon, and a due date at or before the current instant clamps to 0, so the
opportunity counts as due within 14 days. -/
theorem days_until_due_total :
    (∀ (now : Int) (s : String), fromIsoFormat (pyReplace s "Z" "+00:00") = none →
      days_until_due now s = 999 ∧ dueSoon now s = false) ∧
    (∀ (now : Int) (s : String) (due : Int),
      fromIsoFormat (pyReplace s "Z" "+00:00") = some due → due ≤ now →
      days_until_due now s = 0 ∧ dueSoon now s = true) := by
  constructor
  · intro now s h
    have hd : days_until_due now s = 999 := by
      simp only [days_until_due, h]
    refine ⟨hd, ?_⟩
    simp only [dueSoon, hd]
    rfl
  · intro now s due h hle
    have hd : days_until_due now s = 0 := by
      simp only [days_until_due, h]
      omega
    refine ⟨hd, ?_⟩
    simp only [dueSoon, hd]
    rfl

/-- C10 witness: the two branches at concrete inputs — `not-a-date`
(unparseable), `1970-01-01` one day in the past, and the repository's own
fallback `dueDate` shape `isoformat() + "Z"` with microseconds at the
current instant. -/
theorem days_until_due_total_witness :
    days_until_due 0 "not-a-date" = 999 ∧
    days_until_due 86400000000 "1970-01-01" = 0 ∧
    days_until_due 1793609580123456 "2026-11-02T08:53:00.123456Z" = 0 :=
  ⟨(days_until_due_total.1 0 "not-a-date" (by decide)).1,
    (days_until_due_total.2 86400000000 "1970-01-01" 0 (by decide) (by decide)).1,
    (days_until_due_total.2 1793609580123456 "2026-11-02T08:53:00.123456Z"
      1793609580123456 (by decide) (by decide)).1⟩
